import Mathlib

/-!
Verification of the vivisect/dissect decompression core.

This file is a shallow embedding, in Lean 4, of the parts of the
repository that the checked claims are about:

* `dissect/bitlab.py` — the bit stream (`BitStream.cast`, bit expansion);
* `dissect/algos/huffman.py` — `HuffTree` (trie, `addHuffNode`,
  `initCodeBook`, `iterHuffSyms`);
* `dissect/algos/inflate.py` — `Inflate` (`getDynHuffBlock`,
  `_decHuffBlock`, `_getMatchLen`, `_getDist`, `_updateHistBuff`);
* `dissect/algos/mszip.py` — `MsZip.decompBlock` and `_getUncompBlock`;
* `dissect/algos/lzx.py` — `LzxHuffTree.updateLengths`, `Lzx._initVerb`,
  `_initAlign` and the per-block dispatch of `Lzx.decompBlock`;
* `dissect/formats/cab.py` — `CabLab.openCabFile`, `iterCabData`.

Python exceptions become the `PyErr` error type of an `Except` monad.
Python byte strings and the Inflate history buffer become `List Nat`
(the code manipulates them as sequences of small ints).  Python
generators become explicit state threading.  Python list slices are
modelled by `pySlice`, which reproduces Python's negative-index and
clamping semantics exactly, because several claims hinge on them.
-/

set_option maxRecDepth 100000

deriving instance DecidableEq for Except

/-- Kinds of run-time failure of the Python code.  Each constructor
corresponds to an exception class (or dynamic failure) that the source
can raise: `OffHuffTree`, `InflateError(msg)`, `MsZipError`, `LzxError`,
`NameError` (an undefined global such as `DeflateError` in mszip.py or
`DecompError` in inflate.py, or the unbound local `uncomp` in cab.py),
`AttributeError` (attribute lookup on `None` or on an object lacking the
attribute, e.g. `HuffTree.clear`), `KeyError` (dict lookup miss),
`IndexError`, and `StopIteration` (an exhausted generator propagating
out of a `next` call).  `outOfFuel` is an artifact of the embedding:
loops whose termination is data-dependent take an explicit fuel
parameter, always called with enough fuel that this value is never
produced on the executions the theorems below talk about. -/
inductive PyErr where
  | offHuffTree
  | inflateError (msg : String)
  | msZipError
  | lzxError (msg : String)
  | nameError (nm : String)
  | attributeError (nm : String)
  | keyError
  | indexError
  | stopIteration
  | exception (msg : String)
  | outOfFuel
deriving DecidableEq, Repr

/-! ## Python list slicing

`dissect` relies on Python slice semantics in several places
(`buff[-dist:]`, `byts[5:5+dlen]`, `self.lens[i:i+run] = [v]*run`), and
two claims hinge on their clamping behaviour, so the embedding models
them exactly. -/

/-- Normalise a Python slice bound against a list of length `len`:
negative indices count from the end and clamp at 0, non-negative
indices clamp at `len`. -/
def pyNorm (len : Nat) (i : Int) : Nat :=
  if i < 0 then ((len : Int) + i).toNat else min i.toNat len

/-- Python slice `l[a:b]` (step 1). -/
def pySlice {α : Type} (l : List α) (a b : Int) : List α :=
  let s := pyNorm l.length a
  let e := pyNorm l.length b
  (l.drop s).take (e - s)

/-- Python `l[-d:]` — the last `d` elements (the whole list when
`d > len(l)`, and also the whole list when `d = 0`, since `l[-0:]`
is `l[0:]`). -/
def tailSlice (l : List Nat) (d : Nat) : List Nat :=
  pySlice l (-(d : Int)) (l.length : Int)

/-! ## Bit streams (bitlab.py)

`BitStream.cast(n, 'little')` consumes `n` bits, first bit least
significant; `cast(n, 'big')` (LZX) consumes `n` bits, first bit most
significant.  A bit source is a `List Nat` of already-expanded bits;
exhaustion mid-read raises `StopIteration` (the `next(self.bits)` call
inside `cast`). -/

/-- `BitStream.cast(bits, n, 'little')` of bitlab.py: `ret |= b << i`. -/
def castLittle : List Nat → Nat → Except PyErr (Nat × List Nat)
  | bs, 0 => .ok (0, bs)
  | [], _ + 1 => .error .stopIteration
  | b :: bs, n + 1 =>
    match castLittle bs n with
    | .error e => .error e
    | .ok (v, rest) => .ok (b ||| (v <<< 1), rest)

/-- `BitStream.cast(bits, n, 'big')`: `if b: ret |= 1 << (n-1-i)`,
i.e. MSB-first accumulation. -/
def castBigAux (acc : Nat) : List Nat → Nat → Except PyErr (Nat × List Nat)
  | bs, 0 => .ok (acc, bs)
  | [], _ + 1 => .error .stopIteration
  | b :: bs, n + 1 => castBigAux ((acc <<< 1) ||| b) bs n

/-- LZX-order bit read (`LzxHuffTree.cast`). -/
def castBig (bs : List Nat) (n : Nat) : Except PyErr (Nat × List Nat) :=
  castBigAux 0 bs n

/-- Bit expansion of one byte, LSB first (bitlab.py `LSB` order,
shifts `0,1,…,7`). -/
def byteBitsLSB (b : Nat) : List Nat :=
  (List.range 8).map fun i => (b >>> i) &&& 1

/-- `bitlab.BitStream(byts, order='little')`: every byte expanded to
its bits LSB-first, concatenated.  This is the bit source MsZip hands
to the inflater. -/
def bitsLittle (byts : List Nat) : List Nat :=
  (byts.map byteBitsLSB).flatten

/-! ## HuffTree (huffman.py)

The source represents the trie as nested 2-element mutable lists
`[sym, [left, right]]` with `None` for an absent child; a node may hold
both a symbol and children.  `HNode.nil` is the absent child. -/

/-- A node of the Huffman trie: symbol slot plus the two children of
`node[1]`; `nil` stands for Python's `None`. -/
inductive HNode where
  | nil
  | node (sym : Option Nat) (zero : HNode) (one : HNode)
deriving DecidableEq, Repr

/-- Read a node's three slots; an absent node reads as the fresh
`[None, [None, None]]` that `addHuffNode` would create in its place. -/
def hParts : HNode → Option Nat × HNode × HNode
  | .nil => (none, .nil, .nil)
  | .node s z o => (s, z, o)

/-- `HuffTree`: the trie root plus the `codebysym` dict, kept as an
association list with the most recent insertion first. -/
structure HuffTree where
  root : HNode
  codebysym : List (Nat × Nat × Nat)
deriving DecidableEq, Repr

/-- `HuffTree.__init__`: `root = [None,[None,None]]`, empty dict. -/
def huffNew : HuffTree := ⟨.node none .nil .nil, []⟩

/-- `bitvals(valu, bits)` of huffman.py: the code's bits from shift
`bits-1` down to shift `0`. -/
def bitvals (valu bits : Nat) : List Nat :=
  (List.range bits).map fun k => (valu >>> (bits - 1 - k)) &&& 1

/-- Python truthiness of the node's symbol slot, as tested by
`if node[0]:` in `addHuffNode`: `None` and the integer `0` are both
falsy.  (Contrast `iterHuffSyms`, which tests `node[0] != None`.) -/
def pyTruthy : Option Nat → Bool
  | none => false
  | some n => n != 0

/-- The walk-and-create loop of `addHuffNode`: step along the code's
bits creating missing nodes, and at the end test `if node[0]:` (raising
`OffHuffTree('Huffman node conflict')`) before writing the symbol. -/
def insertPath : HNode → List Nat → Nat → Except PyErr HNode
  | t, [], sym =>
    let (s, z, o) := hParts t
    if pyTruthy s then .error .offHuffTree
    else .ok (.node (some sym) z o)
  | t, b :: rest, sym =>
    let (s, z, o) := hParts t
    let child := if b = 0 then z else o
    match insertPath child rest sym with
    | .error e => .error e
    | .ok c => .ok (if b = 0 then .node s c o else .node s z c)

/-- `HuffTree.addHuffNode(sym, bits, code)`: insert along
`bitvals(code, bits)`, then raise `OffHuffTree('Huffman sym conflict')`
if `codebysym` already has an entry for `sym` (a non-empty tuple is
always truthy), else record `(bits, code)` for `sym`. -/
def addHuffNode (t : HuffTree) (sym bits code : Nat) : Except PyErr HuffTree :=
  match insertPath t.root (bitvals code bits) sym with
  | .error e => .error e
  | .ok r =>
    if (t.codebysym.lookup sym).isSome then .error .offHuffTree
    else .ok ⟨r, (sym, (bits, code)) :: t.codebysym⟩

/-- `HuffTree.loadCodeBook(codebook)`: insert every `(sym, bits, code)`
entry in order. -/
def loadCodeBook (t : HuffTree) : List (Nat × Nat × Nat) → Except PyErr HuffTree
  | [] => .ok t
  | (s, b, c) :: rest =>
    match addHuffNode t s b c with
    | .error e => .error e
    | .ok t2 => loadCodeBook t2 rest

/-- The `nbits` defaultdict of `initCodeBook` after the `nbits[0] = 0`
override: the number of symbols of width `b`, except 0 at `b = 0`. -/
def nbitsFn (symbits : List Nat) (b : Nat) : Nat :=
  if b = 0 then 0 else symbits.count b

/-- `max(nbits.keys())`: the keys are the widths occurring in `symbits`
together with 0, so this is the largest width (0 for an empty table). -/
def maxbitsOf (symbits : List Nat) : Nat :=
  symbits.foldr max 0

/-- The `codebase` list of `initCodeBook`, as a function of the index:
`codebase[0] = 0` and `codebase[k+1] = (codebase[k] + nbits[k]) << 1`
(the rfc1951 `next_code` recurrence).  The source materialises entries
`0 … maxbits` and only ever indexes at widths occurring in `symbits`,
all of which are `≤ maxbits`, so the functional form agrees with it at
every index the source reads. -/
def codeBase (symbits : List Nat) : Nat → Nat
  | 0 => 0
  | k + 1 => (codeBase symbits k + nbitsFn symbits k) * 2

/-- The assignment loop of `initCodeBook`: for each symbol in order,
take `code = codebase[bits]`, post-increment `codebase[bits]`, and
append `(sym, bits, code)` to the book iff `bits` is truthy
(`if bits:` — i.e. non-zero). -/
def initCodeBookGo : (Nat → Nat) → List Nat → Nat → List (Nat × Nat × Nat)
  | _, [], _ => []
  | base, bits :: rest, sym =>
    let code := base bits
    let base2 : Nat → Nat := fun b => if b = bits then base b + 1 else base b
    if bits ≠ 0 then (sym, (bits, code)) :: initCodeBookGo base2 rest (sym + 1)
    else initCodeBookGo base2 rest (sym + 1)

/-- `HuffTree.initCodeBook(symbits)`: rfc1951 canonical code
construction from a symbol-width table. -/
def initCodeBook (symbits : List Nat) : List (Nat × Nat × Nat) :=
  initCodeBookGo (codeBase symbits) symbits 0

/-- One symbol of `HuffTree.iterHuffSyms(bits)`: step to `node[1][bit]`,
raise `OffHuffTree` on a missing child, yield on a node whose symbol
slot is not `None`.  Exhaustion of the bit source mid-walk ends the
generator, surfacing as `StopIteration` at the consumer's `next`. -/
def walkHuff (t : HNode) : List Nat → Except PyErr (Nat × List Nat)
  | [] => .error .stopIteration
  | b :: rest =>
    let (_, z, o) := hParts t
    match (if b = 0 then z else o) with
    | .nil => .error .offHuffTree
    | .node (some sym) _ _ => .ok (sym, rest)
    | .node none z2 o2 => walkHuff (.node none z2 o2) rest

/-! ## Inflate (inflate.py)

`Inflate` keeps one mutable history list `self.buff`; `_decHuffBlock`
threads it explicitly here.  All bit reads in this class are
little-order (`cast(bits, n)` with `'little'`). -/

/-- `Inflate._updateHistBuff`: `self.buff = self.buff[-MAX_HIST:]` with
`MAX_HIST = 32768`. -/
def updateHistBuff (buff : List Nat) : List Nat :=
  tailSlice buff 32768

/-- `Inflate._getMatchLen(s, bits)`: match length for symbols 257–285.
`int((s-261)/4)` floors, which for `s ≥ 265` is natural division. -/
def getMatchLen (s : Nat) (bits : List Nat) : Except PyErr (Nat × List Nat) :=
  if s < 257 ∨ s > 285 then .error (.inflateError "Invalid match sym")
  else if s ≤ 264 then .ok (s - 254, bits)
  else if s ≤ 284 then
    let xbits := (s - 261) / 4
    match castLittle bits xbits with
    | .error e => .error e
    | .ok (v, rest) => .ok ((((s - 265) % 4 + 4) <<< xbits) + 3 + v, rest)
  else .ok (258, bits)

/-- `Inflate._getDist(s, bits)`: distance for distance-tree symbols.
`int((s/2)-1)` floors to `s/2 - 1` for `s ≥ 4`. -/
def getDist (s : Nat) (bits : List Nat) : Except PyErr (Nat × List Nat) :=
  if s > 29 then .error (.inflateError "Invalid distance code")
  else if s ≤ 3 then .ok (s + 1, bits)
  else
    let xbits := s / 2 - 1
    match castLittle bits xbits with
    | .error e => .error e
    | .ok (v, rest) => .ok (((s % 2 + 2) <<< xbits) + 1 + v, rest)

/-- The `while mlen > dist` loop of `_decHuffBlock`: repeatedly append
`buff[-dist:]` to both the output and the history.  The slice is taken
from the history as it stands at that iteration, so when the history
holds fewer than `dist` bytes the appended piece is short — the source
has no length check.  Returns the final `(buff, out, mlen)`.  (The
`0 < dist` guard only rules the `dist = 0` case, on which the Python
loop would not terminate, out of the model; `_getDist` never returns
0.) -/
def matchCopyLoop : Nat → List Nat → List Nat → Nat → Nat → List Nat × List Nat × Nat
  | 0, buff, out, mlen, _ => (buff, out, mlen)
  | fuel + 1, buff, out, mlen, dist =>
    if dist < mlen ∧ 0 < dist then
      matchCopyLoop fuel (buff ++ tailSlice buff dist) (out ++ tailSlice buff dist)
        (mlen - dist) dist
    else (buff, out, mlen)

/-- The full back-reference copy of `_decHuffBlock`: the while loop,
then `out += buff[-dist:]` when the residue equals `dist`, else
`out += buff[-dist : mlen-dist]` (a Python slice with negative stop).
The loop's fuel `mlen` is an embedding artifact — the loop body
decreases `mlen` by `dist ≥ 1` each pass, so at most `mlen` passes
run. -/
def matchCopy (buff out : List Nat) (mlen dist : Nat) : List Nat × List Nat :=
  let r := matchCopyLoop mlen buff out mlen dist
  let b := r.1
  let o := r.2.1
  let m := r.2.2
  if m = dist then (b ++ tailSlice b dist, o ++ tailSlice b dist)
  else (b ++ pySlice b (-(dist : Int)) ((m : Int) - (dist : Int)),
        o ++ pySlice b (-(dist : Int)) ((m : Int) - (dist : Int)))

/-- One literal/length symbol, with the generator-exhaustion semantics
of the `for sym in lit_tree.iterHuffSyms(bits)` loop: when the bit
source runs dry the generator simply ends and `_decHuffBlock` raises
`InflateError('Failed to find end of block sym')`. -/
def walkLit (t : HuffTree) (bits : List Nat) : Except PyErr (Nat × List Nat) :=
  match walkHuff t.root bits with
  | .error .stopIteration => .error (.inflateError "Failed to find end of block sym")
  | r => r

/-- The symbol loop of `_decHuffBlock`.  Literals (`< 256`) go to both
the output and the history; 256 returns the output after trimming the
history; larger symbols decode a match length, pull one distance-tree
symbol from the shared bit source (`next(dit)`), decode the distance
and run the copy.  Fuel is an embedding artifact: every iteration
consumes at least one bit, so `bits.length + 1` never runs out. -/
def decLoop (fuel : Nat) (bits : List Nat) (lt dt : HuffTree) (buff out : List Nat) :
    Except PyErr (List Nat × List Nat × List Nat) :=
  match fuel with
  | 0 => .error .outOfFuel
  | fuel + 1 =>
    match walkLit lt bits with
    | .error e => .error e
    | .ok (sym, b1) =>
      if sym < 256 then decLoop fuel b1 lt dt (buff ++ [sym]) (out ++ [sym])
      else if sym = 256 then .ok (out, updateHistBuff buff, b1)
      else
        match getMatchLen sym b1 with
        | .error e => .error e
        | .ok (mlen, b2) =>
          match walkHuff dt.root b2 with
          | .error e => .error e
          | .ok (d, b3) =>
            match getDist d b3 with
            | .error e => .error e
            | .ok (dist, b4) =>
              let bo := matchCopy buff out mlen dist
              decLoop fuel b4 lt dt bo.1 bo.2

/-- `Inflate._decHuffBlock(bits, lit_tree, dist_tree)`.  The source
builds the distance generator `dit = dist_tree.iterHuffSyms(bits)`
before its symbol loop; when `getDynHuffBlock` left `dist_tree = None`
this attribute access on `None` raises `AttributeError` immediately,
before any block symbol is decoded.  Returns
`(out, new history, remaining bits)`. -/
def decHuffBlock (bits : List Nat) (litTree : HuffTree) (distTree : Option HuffTree)
    (buff : List Nat) : Except PyErr (List Nat × List Nat × List Nat) :=
  match distTree with
  | none => .error (.attributeError "iterHuffSyms")
  | some dt => decLoop (bits.length + 1) bits litTree dt buff []

/-- The rfc1951 fixed literal/length widths built by
`Inflate._initFixedTrees`: 0–143 ↦ 8, 144–255 ↦ 9, 256–279 ↦ 7,
280–287 ↦ 8. -/
def fixedLitLens : List Nat :=
  List.replicate 144 8 ++ List.replicate 112 9 ++ List.replicate 24 7 ++ List.replicate 8 8

/-- `self.fix_lits` after `_initFixedTrees` (construction may in
principle fail, hence the `Except`). -/
def fixLitsE : Except PyErr HuffTree :=
  loadCodeBook huffNew (initCodeBook fixedLitLens)

/-- The fixed literal/length tree (its construction succeeds;
see `fixLitsE_ok`). -/
def fixLits : HuffTree :=
  match fixLitsE with
  | .ok t => t
  | .error _ => huffNew

/-- `self.fix_dists` after `_initFixedTrees`: 32 symbols of width 5. -/
def fixDistsE : Except PyErr HuffTree :=
  loadCodeBook huffNew (initCodeBook (List.replicate 32 5))

/-- The fixed distance tree. -/
def fixDists : HuffTree :=
  match fixDistsE with
  | .ok t => t
  | .error _ => huffNew

/-- The `sum(x > 0 for x in dist_len) == 0 and dist_len.count(1) == 1`
guard of `getDynHuffBlock` (inflate.py lines 113–115), which protects
the `raise DecompError('Unhandled code book irregularity')` statement —
`DecompError` being an undefined name. -/
def unhandledIrregularity (distLen : List Nat) : Bool :=
  (0 == distLen.countP fun x => decide (0 < x)) && (distLen.count 1 == 1)

/-- The fixed permutation in which `getDynHuffBlock` receives the
code-length-code widths. -/
def lenMap : List Nat := [16, 17, 18, 0, 8, 7, 9, 6, 10, 5, 11, 4, 12, 3, 13, 2, 14, 1, 15]

/-- The `for i in range(hclen): lens[len_map[i]] = cast(bits, 3)` loop
of `getDynHuffBlock`; `cnt` counts the remaining iterations. -/
def readClenLens (bits lens : List Nat) (i cnt : Nat) : Except PyErr (List Nat × List Nat) :=
  match cnt with
  | 0 => .ok (lens, bits)
  | n + 1 =>
    match castLittle bits 3 with
    | .error e => .error e
    | .ok (v, b1) => readClenLens b1 (lens.set (lenMap.getD i 0) v) (i + 1) n

/-- The code-length expansion loop of `getDynHuffBlock` (the
`while i < len(code_lens)` loop): `val` is the Python local of the same
name with `-1` rendered as `none`, `vlen` the pending repeat count.
Symbols `< 16` are literal widths; 16 repeats the previous width
`3 + 2 bits` times (fatal if there is none yet); 17 and 18 write runs
of zeros; anything else is fatal.  Returns
`(code_lens, remaining bits, final vlen)`.  Fuel is an embedding
artifact; every iteration either advances `i` (at most
`len(code_lens)` times) or consumes bits. -/
def clLoop (fuel : Nat) (bits : List Nat) (lt : HuffTree) (cl : List Nat) (i : Nat)
    (val : Option Nat) (vlen : Nat) : Except PyErr (List Nat × List Nat × Nat) :=
  match fuel with
  | 0 => .error .outOfFuel
  | fuel + 1 =>
    if i < cl.length then
      if 0 < vlen then
        clLoop fuel bits lt (cl.set i (val.getD 0)) (i + 1) val (vlen - 1)
      else
        match walkHuff lt.root bits with
        | .error e => .error e
        | .ok (sym, b1) =>
          if sym < 16 then clLoop fuel b1 lt (cl.set i sym) (i + 1) (some sym) 0
          else if sym = 16 then
            match val with
            | none => .error (.inflateError "Invalid code copy length")
            | some v =>
              match castLittle b1 2 with
              | .error e => .error e
              | .ok (c, b2) => clLoop fuel b2 lt cl i (some v) (c + 3)
          else if sym = 17 then
            match castLittle b1 3 with
            | .error e => .error e
            | .ok (c, b2) => clLoop fuel b2 lt cl i (some 0) (c + 3)
          else if sym = 18 then
            match castLittle b1 7 with
            | .error e => .error e
            | .ok (c, b2) => clLoop fuel b2 lt cl i (some 0) (c + 11)
          else .error (.inflateError "Invalid or corrupt block data")
    else .ok (cl, bits, vlen)

/-- `Inflate.getDynHuffBlock(bits)`: read `HLIT`, `HDIST`, `HCLEN`,
the permuted code-length widths, build the code-length tree, expand
`HLIT + HDIST` widths, build the literal tree, and build the distance
tree unless `dist_len == [0]` (in which case `dist_tree` stays `None`)
or the contradictory irregularity guard fires (in which case the
undefined name `DecompError` raises `NameError`).  Finally run
`_decHuffBlock`. -/
def getDynHuffBlock (bits buff : List Nat) :
    Except PyErr (List Nat × List Nat × List Nat) := do
  let (h5a, b1) ← castLittle bits 5
  let hlit := h5a + 257
  let (h5b, b2) ← castLittle b1 5
  let hdist := h5b + 1
  let (h4, b3) ← castLittle b2 4
  let hclen := h4 + 4
  let (lens, b4) ← readClenLens b3 (List.replicate 19 0) 0 hclen
  let lenTree ← loadCodeBook huffNew (initCodeBook lens)
  let (cl, b5, vlen) ← clLoop (b4.length + (hlit + hdist) + 2) b4 lenTree
      (List.replicate (hlit + hdist) 0) 0 none 0
  if vlen ≠ 0 then .error (.inflateError "Invalid match length")
  else
    let litTree ← loadCodeBook huffNew (initCodeBook (cl.take hlit))
    let distLen := cl.drop hlit
    if distLen.length ≠ 1 ∨ distLen.getD 0 0 ≠ 0 then
      if unhandledIrregularity distLen then .error (.nameError "DecompError")
      else do
        let distTree ← loadCodeBook huffNew (initCodeBook distLen)
        decHuffBlock b5 litTree (some distTree) buff
    else
      decHuffBlock b5 litTree none buff

/-- `Inflate.getFixHuffBlock(bits)`. -/
def getFixHuffBlock (bits buff : List Nat) :
    Except PyErr (List Nat × List Nat × List Nat) :=
  decHuffBlock bits fixLits (some fixDists) buff

/-! ## MsZip (mszip.py)

`MsZip` extends `Inflate`, so one instance carries one history buffer
across every CFDATA frame it decodes.  `decompBlock(iterblk)` checks
the `CK` signature of each frame, builds a fresh little-order
`BitStream` over the frame's bytes *after* the signature, and loops
over DEFLATE blocks until `BFINAL`; but it passes the *full* frame
bytes (signature included) to the per-block handlers as `byts`. -/

/-- `MsZip._getUncompBlock(bits, byts)`: skip 5 bits (the comment says
"Assuming we are at index 3 here"), read the 16-bit lengths, raise on
a complement mismatch — via the name `DeflateError`, which mszip.py
never imports, so what actually raises is `NameError` — and return
`byts[5 : 5+dlen]`, where `byts` is the whole CFDATA block including
the 2-byte `CK` prefix.  Returns the emitted bytes, the untouched
history (this handler never writes `self.buff`) is implicit, and the
remaining bits. -/
def msZipGetUncompBlock (bits ab : List Nat) : Except PyErr (List Nat × List Nat) :=
  match castLittle bits 5 with
  | .error e => .error e
  | .ok (_, b1) =>
    match castLittle b1 16 with
    | .error e => .error e
    | .ok (dlen, b2) =>
      match castLittle b2 16 with
      | .error e => .error e
      | .ok (clen, b3) =>
        if (dlen ^^^ 0xFFFF) ≠ clen then .error (.nameError "DeflateError")
        else .ok (pySlice ab 5 (5 + (dlen : Int)), b3)

/-- The `self.decomps[bt](bits, byts)` dispatch of `MsZip.decompBlock`:
block type 0 is the stored handler, 1 fixed Huffman, 2 dynamic Huffman,
3 `_invalidBlock` (which raises `MsZipError`).  Returns
`(block bytes, new history, remaining bits)`. -/
def msDispatch (bt : Nat) (bits ab buff : List Nat) :
    Except PyErr (List Nat × List Nat × List Nat) :=
  if bt = 0 then
    match msZipGetUncompBlock bits ab with
    | .error e => .error e
    | .ok (blk, b2) => .ok (blk, buff, b2)
  else if bt = 1 then getFixHuffBlock bits buff
  else if bt = 2 then getDynHuffBlock bits buff
  else .error .msZipError

/-- The `while not final` loop of `MsZip.decompBlock`: read `BFINAL`
and `BTYPE`, dispatch, extend `msblock`, repeat until `BFINAL`.
Returns `(msblock, new history, remaining bits)`.  Fuel is an
embedding artifact; every iteration consumes at least three bits. -/
def msBlockLoop (fuel : Nat) (bits ab buff acc : List Nat) :
    Except PyErr (List Nat × List Nat × List Nat) :=
  match fuel with
  | 0 => .error .outOfFuel
  | fuel + 1 =>
    match castLittle bits 1 with
    | .error e => .error e
    | .ok (final, b1) =>
      match castLittle b1 2 with
      | .error e => .error e
      | .ok (bt, b2) =>
        match msDispatch bt b2 ab buff with
        | .error e => .error e
        | .ok (blk, buff2, b3) =>
          if final = 0 then msBlockLoop fuel b3 ab buff2 (acc ++ blk)
          else .ok (acc ++ blk, buff2, b3)

/-- One CFDATA frame of `MsZip.decompBlock`: check the `CK` signature
(`b'CK' = [0x43, 0x4B]`), expand `byts[2:]` to a little-order bit
stream, run the block loop, yield `bytes(msblock)`.  The history
enters as `buff` and leaves updated — nothing resets it. -/
def msZipFrame (ab buff : List Nat) : Except PyErr (List Nat × List Nat) :=
  if ab.take 2 = [0x43, 0x4B] then
    match msBlockLoop ((bitsLittle (ab.drop 2)).length + 1) (bitsLittle (ab.drop 2)) ab buff [] with
    | .error e => .error e
    | .ok (blk, buff2, _) => .ok (blk, buff2)
  else .error .msZipError

/-- `MsZip.decompBlock(iterblk)` over a list of CFDATA payloads: the
`for frame in iterblk` loop, threading `self.buff` from frame to
frame.  Returns the per-frame yields and the final history. -/
def msZipDecompBlock : List (List Nat) → List Nat → Except PyErr (List (List Nat) × List Nat)
  | [], buff => .ok ([], buff)
  | f :: rest, buff =>
    match msZipFrame f buff with
    | .error e => .error e
    | .ok (blk, b2) =>
      match msZipDecompBlock rest b2 with
      | .error e => .error e
      | .ok (outs, b3) => .ok (blk :: outs, b3)

/-! ## LZX (lzx.py) -/

/-- The delta update shared by the `0..16` and `19` branches of
`LzxHuffTree.updateLengths`: `sym = old - sym; if sym < 0: sym += 17`.
A single conditional `+ 17`, not a mod. -/
def lzxDelta (old sym : Int) : Int :=
  if old - sym < 0 then old - sym + 17 else old - sym

/-- Python slice assignment `lens[i:i+run] = [v]*run`: replace the
(possibly clamped) slice by exactly `run` copies of `v`, growing the
list when `i + run` exceeds its length. -/
def spliceRun (lens : List Int) (i run : Nat) (v : Int) : List Int :=
  lens.take i ++ List.replicate run v ++ lens.drop (i + run)

/-- Read `cnt` groups of `width` big-order bits
(`[self.cast(bits, 4) for i in range(20)]`). -/
def castBigList (bits : List Nat) (cnt width : Nat) : Except PyErr (List Nat × List Nat) :=
  match cnt with
  | 0 => .ok ([], bits)
  | n + 1 =>
    match castBig bits width with
    | .error e => .error e
    | .ok (v, b1) =>
      match castBigList b1 n width with
      | .error e => .error e
      | .ok (vs, b2) => .ok (v :: vs, b2)

/-- The `while i < stop` loop of `LzxHuffTree.updateLengths`: decode a
pre-tree symbol; 17 writes a `cast(4)+4` run of zeros, 18 a
`cast(5)+20` run of zeros, 19 reads `cast(1)+4` as the run length,
decodes the *next* pre-tree symbol and writes the run with the delta of
the first slot's old length, and any other symbol updates one slot by
its own delta. -/
def updLoop (ptree : HuffTree) (fuel : Nat) (bits : List Nat) (lens : List Int) (i stop : Nat) :
    Except PyErr (List Int × List Nat) :=
  if i < stop then
    match fuel with
    | 0 => .error .outOfFuel
    | fuel + 1 =>
      match walkHuff ptree.root bits with
      | .error e => .error e
      | .ok (sym, b1) =>
        if sym = 17 then
          match castBig b1 4 with
          | .error e => .error e
          | .ok (c, b2) => updLoop ptree fuel b2 (spliceRun lens i (c + 4) 0) (i + (c + 4)) stop
        else if sym = 18 then
          match castBig b1 5 with
          | .error e => .error e
          | .ok (c, b2) => updLoop ptree fuel b2 (spliceRun lens i (c + 20) 0) (i + (c + 20)) stop
        else if sym = 19 then
          match castBig b1 1 with
          | .error e => .error e
          | .ok (c, b2) =>
            match walkHuff ptree.root b2 with
            | .error e => .error e
            | .ok (nsym, b3) =>
              updLoop ptree fuel b3 (spliceRun lens i (c + 4) (lzxDelta (lens.getD i 0) nsym))
                (i + (c + 4)) stop
        else
          updLoop ptree fuel b1 (lens.set i (lzxDelta (lens.getD i 0) sym)) (i + 1) stop
  else .ok (lens, bits)

/-- `LzxHuffTree.updateLengths(bits, start, stop)`: read the 20 4-bit
pre-tree widths, build the pre-tree, and run the update loop over the
persistent length array.  The loop's fuel `stop + 1` is an embedding
artifact — every pass advances `i` by at least one slot. -/
def updateLengths (bits : List Nat) (lens : List Int) (start stop : Nat) :
    Except PyErr (List Int × List Nat) :=
  match castBigList bits 20 4 with
  | .error e => .error e
  | .ok (tlens, b1) =>
    match loadCodeBook huffNew (initCodeBook tlens) with
    | .error e => .error e
    | .ok ptree => updLoop ptree (stop + 1) b1 lens start stop

/-- The methods the class body of `HuffTree` (huffman.py) defines,
beyond `object`'s own attributes. -/
def huffTreeMethods : List String :=
  ["iterHuffSyms", "getCodeBySym", "addHuffNode", "loadCodeBook", "initCodeBook"]

/-- The methods `LzxHuffTree` (lzx.py) adds to `HuffTree`. -/
def lzxHuffTreeMethods : List String :=
  huffTreeMethods ++ ["cast", "getWordBytes", "getLens", "updateLengths"]

/-- The `self.mtree.clear()` / `self.ltree.clear()` / `self.atree.clear()`
calls of `Lzx._initVerb` and `Lzx._initAlign`: neither `HuffTree` nor
`LzxHuffTree` defines a `clear` method, so the attribute lookup raises
`AttributeError`. -/
def lzxTreeClear : Except PyErr Unit :=
  if lzxHuffTreeMethods.contains "clear" then .ok ()
  else .error (.attributeError "clear")

/-- `Lzx._initVerb(bits)`: it runs `self.mtree.clear()` then
`self.ltree.clear()` before anything else; `rest` stands for the whole
remainder of the method (the `updateLengths` calls and codebook
builds), which is reached only if both calls return. -/
def lzxInitVerb (rest : Except PyErr Unit) : Except PyErr Unit :=
  match lzxTreeClear with
  | .error e => .error e
  | .ok _ =>
    match lzxTreeClear with
    | .error e => .error e
    | .ok _ => rest

/-- `Lzx._initAlign(bits)`: `self.atree.clear()` first, then the
aligned-tree build (`buildATree`), then `_initVerb` with its own
remainder `rest`. -/
def lzxInitAlign (buildATree : Except PyErr Unit) (rest : Except PyErr Unit) :
    Except PyErr Unit :=
  match lzxTreeClear with
  | .error e => .error e
  | .ok _ =>
    match buildATree with
    | .error e => .error e
    | .ok _ => lzxInitVerb rest

/-- Lines 540–543 of `Lzx.decompBlock`: after reading the block header
the code runs `self.decomps[btype][0](bits)` (the per-block init) and
only then consumes the decode generator `self.decomps[btype][1]`.
`frames` stands for the frames that generator would yield; an init
failure propagates before any of them is produced.  A block type
outside the `decomps` dict (0 or > 3) raises `KeyError`. -/
def lzxBlockFrames (btype : Nat) (verbRest buildATree : Except PyErr Unit)
    (frames : List (List Nat)) : Except PyErr (List (List Nat)) :=
  if btype = 1 then
    match lzxInitVerb verbRest with
    | .error e => .error e
    | .ok _ => .ok frames
  else if btype = 2 then
    match lzxInitAlign buildATree verbRest with
    | .error e => .error e
    | .ok _ => .ok frames
  else if btype = 3 then .ok frames
  else .error .keyError

/-! ## CAB orchestrator (cab.py)

`CabLab` parses the container through the external `vstruct` library;
the embedding starts from the already-parsed records.  Only the fields
`openCabFile` and `iterCabData` read are modelled. -/

/-- A parsed CFFOLDER record (the fields cab.py reads). -/
structure PyCFFOLDER where
  coffCabStart : Nat
  cCFData : Nat
  typeCompress : Nat
deriving DecidableEq, Repr

/-- A parsed CFFILE record (the fields cab.py reads). -/
structure PyCFFILE where
  cbFile : Nat
  uoffFolderStart : Nat
  iFolder : Nat
  szName : String
deriving DecidableEq, Repr

/-- A parsed CFDATA record. -/
structure PyCFDATA where
  csum : Nat
  cbData : Nat
  cbUncomp : Nat
  ab : List Nat
deriving DecidableEq, Repr

/-- `len(cfd)`: a CFDATA consumes `4 + 2 + 2 + abres + cbData` file
bytes. -/
def cfdataLen (abres : Nat) (d : PyCFDATA) : Nat :=
  8 + abres + d.cbData

/-- A parsed cabinet as `CabLab` sees it: the lab's base offset, the
file and folder arrays, the per-CFDATA reserve size, and the CFDATA
parser `getStruct` (file offset ↦ record; `none` models a parse
failure). -/
structure CabModel where
  off : Nat
  files : List PyCFFILE
  folders : List PyCFFOLDER
  abres : Nat
  getStruct : Nat → Option PyCFDATA

/-- `CabLab._loadFilesByName`: `ret[cff.szName] = cff` in array order,
so a duplicated name keeps the last record. -/
def filesByName (files : List PyCFFILE) (name : String) : Option PyCFFILE :=
  files.foldl (fun acc f => if f.szName = name then some f else acc) none

/-- The `for uoff, cfd in self.iterCabData(...)` loop of `openCabFile`.
`iterCabData` starts `uoff` at `self.off + off` — the CFDATA's absolute
file offset — and advances it by `cbUncomp`, while `off` advances by
`len(cfd)`.  The loop body: break when `uoff >= umax` (leaving the
local `uncomp` whatever it was); check the `CK` signature (else
`raise Exception('omg')`); `uncomp = deco.decompress(cfd.ab[2:])`
(`deco` is a zlib decompressor, abstracted by the `inflate` oracle);
raise when its length differs from `cbUncomp`; `continue` early or
compute the dead `smin`/`smax` — either way no byte is ever written to
`fd`, every `fd.write` being commented out.  Returns the last-bound
`uncomp`, or `none` when the loop broke before binding it. -/
def openCabLoop (cab : CabModel) (inflate : List Nat → List Nat) (fuel : Nat)
    (uoff off umax : Nat) (uncomp : Option (List Nat)) :
    Except PyErr (Option (List Nat)) :=
  match fuel with
  | 0 => .error .outOfFuel
  | fuel + 1 =>
    match cab.getStruct off with
    | none => .error (.exception "getStruct")
    | some cfd =>
      if uoff ≥ umax then .ok uncomp
      else if cfd.ab.take 2 ≠ [0x43, 0x4B] then .error (.exception "omg")
      else
        let u := inflate (cfd.ab.drop 2)
        if u.length ≠ cfd.cbUncomp then .error (.exception "Inflate Size Failure")
        else
          openCabLoop cab inflate fuel (uoff + cfd.cbUncomp) (off + cfdataLen cab.abres cfd)
            umax (some u)

/-- `CabLab.openCabFile(name)`: look the file up by name (else
`raise Exception('CAB File Not Found')`), index its folder, set
`umin = uoffFolderStart`, `umax = umin + cbFile`, run the CFDATA loop,
then execute `print('UNCOMP: %r' % (uncomp[umin:umax],))` — a
`NameError` when the loop never bound `uncomp` — and return `fd`.  No
`fd.write` call survives in the source, so the returned file-like
object holds no bytes; the model returns its contents. -/
def openCabFile (cab : CabModel) (inflate : List Nat → List Nat) (name : String)
    (fuel : Nat) : Except PyErr (List Nat) :=
  match filesByName cab.files name with
  | none => .error (.exception "CAB File Not Found")
  | some cff =>
    match cab.folders[cff.iFolder]? with
    | none => .error .indexError
    | some cfo =>
      let umin := cff.uoffFolderStart
      let umax := cff.uoffFolderStart + cff.cbFile
      match openCabLoop cab inflate fuel (cab.off + cfo.coffCabStart) cfo.coffCabStart
          umax none with
      | .error e => .error e
      | .ok none => .error (.nameError "uncomp")
      | .ok (some u) =>
        let _ := pySlice u (umin : Int) (umax : Int)
        .ok []

/-! ## Concrete inputs used by the theorems -/

/-- The stored-block scenario of spec §8.2: a CFDATA whose bytes after
`CK` are `00 05 00 FA FF` followed by `"hello"`. -/
def storedCfdata : List Nat :=
  [0x43, 0x4B, 0x00, 0x05, 0x00, 0xFA, 0xFF, 104, 101, 108, 108, 111]

/-- A fixed-Huffman DEFLATE block whose first symbol is the match
257 (length 3, code `0000001`) with distance symbol 0 (code `00000`,
distance 1), followed by end-of-block (`0000000`): a back-reference
whose distance exceeds an empty history. -/
def overlongMatchBits : List Nat :=
  [0, 0, 0, 0, 0, 0, 1] ++ [0, 0, 0, 0, 0] ++ [0, 0, 0, 0, 0, 0, 0]

/-- CFDATA frame 1 of the history-persistence scenario: `CK` + a final
fixed-Huffman block holding the single literal `a` (97, code
`10010001`) and end-of-block.  Bit-packed LSB-first this is
`4B 04 00`. -/
def histFrame1 : List Nat := [0x43, 0x4B, 0x4B, 0x04, 0x00]

/-- CFDATA frame 2 of the history-persistence scenario: `CK` + a final
fixed-Huffman block holding one match (symbol 257: length 3, distance
symbol 0: distance 1) and end-of-block — a back-reference that can only
be satisfied by bytes decoded from frame 1.  Bit-packed LSB-first this
is `03 02 00`. -/
def histFrame2 : List Nat := [0x43, 0x4B, 0x03, 0x02, 0x00]

/-- A dynamic-Huffman block header with `HLIT = 257`, `HDIST = 1`,
`HCLEN = 4`; code-length widths giving symbol 18 the single 1-bit code;
then two 18-runs (138 and 120 zeros) filling all 258 widths with 0, so
that every literal width and the single distance width are 0. -/
def dynZeroDistBits : List Nat :=
  List.replicate 5 0 ++ List.replicate 5 0 ++ List.replicate 4 0 ++
  [0, 0, 0] ++ [0, 0, 0] ++ [1, 0, 0] ++ [0, 0, 0] ++
  [0] ++ List.replicate 7 1 ++ [0] ++ [1, 0, 1, 1, 0, 1, 1]

/-- `updateLengths` input for the sym-19 delta corner: pre-tree widths
give symbols 17 and 19 the two 1-bit codes; the body decodes symbol 19,
reads run bit 0 (run 4) and decodes next symbol 19 as the delta. -/
def lzxDeltaCornerBits : List Nat :=
  List.replicate 68 0 ++ [0, 0, 0, 1] ++ [0, 0, 0, 0] ++ [0, 0, 0, 1] ++ [1, 0, 1]

/-- `updateLengths` input for the amended behaviour: pre-tree widths
give symbols 5 and 17 the two 1-bit codes; the body decodes symbol 5
(delta on one slot) and then symbol 17 with run bits `0000` (a run of
four zeros). -/
def lzxGoodBits : List Nat :=
  List.replicate 20 0 ++ [0, 0, 0, 1] ++ List.replicate 44 0 ++ [0, 0, 0, 1] ++
  List.replicate 8 0 ++ [0] ++ [1] ++ [0, 0, 0, 0]

/-- The claim-6 end-to-end cabinet: one MSZIP folder whose single
CFDATA (at absolute file offset 62) is `CK` plus a final stored DEFLATE
block holding the 12 bytes `"hello world!"`; one 12-byte file named
`a` at folder offset 0. -/
def c1Cfdata : PyCFDATA :=
  ⟨0, 19, 12,
    [0x43, 0x4B, 0x01, 0x0C, 0x00, 0xF3, 0xFF,
     104, 101, 108, 108, 111, 32, 119, 111, 114, 108, 100, 33]⟩

/-- The parsed form of that cabinet. -/
def c1Cab : CabModel :=
  { off := 0
    files := [⟨12, 0, 0, "a"⟩]
    folders := [⟨62, 1, 1⟩]
    abres := 0
    getStruct := fun o => if o = 62 then some c1Cfdata else none }

/-! ## Helper lemmas -/

/-- Every entry the `initCodeBook` assignment loop emits has a non-zero
width, a symbol at or beyond the loop's start, and a width that is the
table's entry for its symbol. -/
theorem initCodeBookGo_mem {base : Nat → Nat} {l : List Nat} {s0 : Nat}
    {e : Nat × Nat × Nat} (h : e ∈ initCodeBookGo base l s0) :
    e.2.1 ≠ 0 ∧ s0 ≤ e.1 ∧ l.getD (e.1 - s0) 0 = e.2.1 := by
  induction l generalizing base s0 with
  | nil => simp [initCodeBookGo] at h
  | cons b rest ih =>
    by_cases hb : b = 0
    · subst hb
      simp only [initCodeBookGo, ne_eq, not_true_eq_false, if_false] at h
      obtain ⟨h1, h2, h3⟩ := ih h
      refine ⟨h1, by omega, ?_⟩
      have hs : e.1 - s0 = (e.1 - (s0 + 1)) + 1 := by omega
      rw [hs, List.getD_cons_succ]
      exact h3
    · simp only [initCodeBookGo, ne_eq, hb, not_false_eq_true, if_true,
        List.mem_cons] at h
      rcases h with h | h
      · subst h
        exact ⟨hb, le_refl _, by simp⟩
      · obtain ⟨h1, h2, h3⟩ := ih h
        refine ⟨h1, by omega, ?_⟩
        have hs : e.1 - s0 = (e.1 - (s0 + 1)) + 1 := by omega
        rw [hs, List.getD_cons_succ]
        exact h3

/-- The fixed literal/length tree builds without a conflict. -/
theorem fixLitsE_ok : fixLitsE = .ok fixLits := by rfl

/-- The fixed distance tree builds without a conflict. -/
theorem fixDistsE_ok : fixDistsE = .ok fixDists := by rfl

/-! ## Claim theorems -/

/-- C3: `initCodeBook` on the width table `(3,3,3,3,3,2,4,4)` returns
exactly the rfc1951 example codebook `A=010, B=011, C=100, D=101,
E=110, F=00, G=1110, H=1111`; and in general every returned entry has
a non-zero width equal to the table's width for its symbol, so every
symbol of width 0 is omitted from the codebook. -/
theorem initCodeBook_canonical :
    initCodeBook [3, 3, 3, 3, 3, 2, 4, 4] =
      [(0, 3, 2), (1, 3, 3), (2, 3, 4), (3, 3, 5), (4, 3, 6),
       (5, 2, 0), (6, 4, 14), (7, 4, 15)]
    ∧ ∀ (symbits : List Nat) (e : Nat × Nat × Nat), e ∈ initCodeBook symbits →
        e.2.1 ≠ 0 ∧ symbits.getD e.1 0 = e.2.1 := by
  refine ⟨by decide, ?_⟩
  intro symbits e h
  obtain ⟨h1, _, h3⟩ := initCodeBookGo_mem h
  exact ⟨h1, by simpa using h3⟩

/-- C3 witness: the general clause applied to the table `[0, 2]` and
its single codebook entry `(1, 2, 0)`. -/
theorem initCodeBook_canonical_witness :
    (1, 2, 0) ∈ initCodeBook [0, 2] ∧ (2 ≠ 0 ∧ [0, 2].getD 1 0 = 2) :=
  ⟨by decide, initCodeBook_canonical.2 [0, 2] (1, 2, 0) (by decide)⟩

/-- C9: the guard of the `'Unhandled code book irregularity'` branch of
`getDynHuffBlock` is unsatisfiable — a list with exactly one entry
equal to 1 has a positive entry — so the branch referencing the
undefined name `DecompError` is unreachable. -/
theorem unhandled_irregularity_unreachable :
    ∀ distLen : List Nat, unhandledIrregularity distLen = false := by
  intro l
  cases hEq : unhandledIrregularity l with
  | false => rfl
  | true =>
    exfalso
    unfold unhandledIrregularity at hEq
    rw [Bool.and_eq_true, beq_iff_eq, beq_iff_eq] at hEq
    obtain ⟨ha, hb⟩ := hEq
    have h1 : (1 : Nat) ∈ l := List.count_pos_iff.mp (by omega)
    have h2 : 0 < l.countP fun x => decide (0 < x) :=
      List.countP_pos_iff.mpr ⟨1, h1, by decide⟩
    omega

/-- C5: `addHuffNode`'s duplicate-node test is `if node[0]:`, which is
false when the existing leaf's symbol is the integer 0; inserting
symbol 5 over the leaf created for symbol 0 on the same 1-bit code
therefore succeeds and silently overwrites the leaf instead of raising
the 'Huffman node conflict' error. -/
theorem addHuffNode_overwrites_symbol_zero_leaf :
    (addHuffNode huffNew 0 1 0).bind (fun t => addHuffNode t 5 1 0) =
      .ok ⟨.node none (.node (some 5) .nil .nil) .nil, [(5, 1, 0), (0, 1, 0)]⟩ := by
  decide

/-- C4: `_decHuffBlock` has no distance-versus-history check — on a
fixed-Huffman block whose first symbol is a length-3 match at distance
1 against an empty history, Python's `buff[-1:]` is empty, so the code
returns successfully having emitted zero bytes instead of raising an
InvalidMatch-kind error. -/
theorem inflate_overlong_distance_silently_truncated :
    decHuffBlock overlongMatchBits fixLits (some fixDists) [] = .ok ([], [], []) := by
  decide

/-- C2: on the CFDATA `CK 00 05 00 FA FF "hello"` the stored-block
handler returns `byts[5:5+5]` of the *full* block — the bytes
`FA FF 68 65 6C` (the NLEN field plus `"hel"`), not `"hello"` — because
`decompBlock` passes the frame including its 2-byte `CK` prefix, under
which the payload starts at offset 7, not 5; and since the header byte
`00` has `BFINAL = 0`, the block loop then reads on into the payload
bits and fails on the undefined name `DeflateError`. -/
theorem mszip_stored_block_wrong_payload_slice :
    (msZipGetUncompBlock ((bitsLittle (storedCfdata.drop 2)).drop 3) storedCfdata).map
        Prod.fst = .ok [250, 255, 104, 101, 108]
    ∧ ([250, 255, 104, 101, 108] : List Nat) ≠ [104, 101, 108, 108, 111]
    ∧ msZipFrame storedCfdata [] = .error (.nameError "DeflateError") := by
  refine ⟨by decide, by decide, by decide⟩

/-- C7 counterexample: decoding CFDATA 2 inside a `decompBlock` run
that first decoded CFDATA 1 yields `[97, 97, 97]` — its back-reference
is satisfied from CFDATA 1's byte — whereas decoding the same CFDATA 2
with an empty history yields no bytes at all; so decoding of a CFDATA
does not begin with an empty history. -/
theorem mszip_history_not_reset_counterexample :
    msZipDecompBlock [histFrame1, histFrame2] [] =
      .ok ([[97], [97, 97, 97]], [97, 97, 97, 97])
    ∧ msZipDecompBlock [histFrame2] [] = .ok ([[]], [])
    ∧ ([97, 97, 97] : List Nat) ≠ [] := by
  refine ⟨by decide, by decide, by decide⟩

/-- C7 (amended): the DEFLATE history persists across the CFDATA
frames of one `decompBlock` run — the second frame's match of length 3
at distance 1 is resolved against the byte emitted for the first
frame, and the final history holds the bytes of both frames. -/
theorem mszip_history_persists_across_cfdata :
    msZipDecompBlock [histFrame1, histFrame2] [] =
      .ok ([[97], [97, 97, 97]], [97, 97, 97, 97]) := by
  decide

/-- C8: whenever `getDynHuffBlock` leaves `dist_tree = None` — in
particular for `HDIST = 1` with the single distance width decoded to 0
and a body of literals and end-of-block only — `_decHuffBlock`
dereferences `None` before decoding any block symbol, so the decode
always fails with `AttributeError` and emits nothing. -/
theorem dyn_block_zero_dist_tree_always_fails :
    (∀ (bits buff : List Nat) (lt : HuffTree),
        decHuffBlock bits lt none buff = .error (.attributeError "iterHuffSyms"))
    ∧ getDynHuffBlock dynZeroDistBits [] = .error (.attributeError "iterHuffSyms") :=
  ⟨fun _ _ _ => rfl, by decide⟩

/-- C10: `HuffTree`/`LzxHuffTree` define no `clear` method, so the
`self.mtree.clear()` (resp. `self.atree.clear()`) call at the top of
`_initVerb` (resp. `_initAlign`) raises `AttributeError` whatever the
rest of the initialisation would do, and `decompBlock` consequently
yields no frame for any verbatim (type 1) or aligned (type 2) block. -/
theorem lzx_verbatim_aligned_init_always_fails :
    lzxHuffTreeMethods.contains "clear" = false
    ∧ ∀ (verbRest buildATree : Except PyErr Unit) (frames : List (List Nat)),
        lzxBlockFrames 1 verbRest buildATree frames = .error (.attributeError "clear")
        ∧ lzxBlockFrames 2 verbRest buildATree frames = .error (.attributeError "clear") :=
  ⟨by decide, fun _ _ _ => ⟨rfl, rfl⟩⟩

/-- C6 counterexample: when the pre-tree symbol following a 19 is
itself 19 and the slot's old length is 0, `updateLengths` stores
`0 - 19 + 17 = -2` in every slot of the run, whereas
`(0 - 19) mod 17 = 15`; the claimed mod-17 semantics fail. -/
theorem updateLengths_delta_not_mod17_counterexample :
    updateLengths lzxDeltaCornerBits [0, 0, 0, 0] 0 4 = .ok ([-2, -2, -2, -2], [])
    ∧ ((0 : Int) - 19) % 17 = 15
    ∧ ((-2 : Int) ≠ 15) := by
  refine ⟨by decide, by decide, by decide⟩

/-- C6 (amended): the delta update is `old − sym`, plus 17 exactly once
when negative, which agrees with `(old − sym) mod 17` whenever
`0 ≤ old ≤ 16` and `0 ≤ sym ≤ 17` (so for every pre-tree symbol of the
`0..16` branch, and for a 19-branch `nextsym` up to 17, but not for a
`nextsym` of 18 or 19 over a small old length); runs behave as claimed:
on the concrete input the plain-symbol branch turns the first slot's
length 0 into `(0 − 5) mod 17 = 12` and the 17-branch writes a run of
`4 + read_bits(4)` zeros. -/
theorem updateLengths_delta_amended :
    (∀ old sym : Int, 0 ≤ old → old ≤ 16 → 0 ≤ sym → sym ≤ 17 →
        lzxDelta old sym = (old - sym) % 17)
    ∧ updateLengths lzxGoodBits [0, 0, 0, 0] 0 4 = .ok ([12, 0, 0, 0, 0], []) := by
  constructor
  · intro old sym h1 h2 h3 h4
    unfold lzxDelta
    split <;> omega
  · decide

/-- C6 witness: the amended delta identity at `old = 5`, `sym = 7`. -/
theorem updateLengths_delta_amended_witness :
    lzxDelta 5 7 = ((5 : Int) - 7) % 17 :=
  updateLengths_delta_amended.1 5 7 (by decide) (by decide) (by decide) (by decide)

/-- C1: on the claimed cabinet — one MSZIP folder, one CFDATA holding a
`CK`-framed DEFLATE block of a 12-byte file — `openCabFile` does not
return the file's bytes: `iterCabData` starts `uoff` at the CFDATA's
absolute file offset (62), so the loop breaks immediately
(`62 ≥ umax = 12`) and the final `print` raises `NameError` on the
unbound local `uncomp`, whatever the zlib decompressor would have
returned; and no path of the function writes a byte to `fd`. -/
theorem openCabFile_yields_no_file_bytes :
    ∀ inflate : List Nat → List Nat,
      openCabFile c1Cab inflate "a" 1 = .error (.nameError "uncomp") :=
  fun _ => rfl
